import Mathlib

/-!
Verification of the reactor-loop core of `src/examples/c/http-server.c`
(demikernel C example).  The program is embedded shallowly: the setup
phase (lines 27-39) becomes a function from the return codes of the
asserted calls to either an initial server state or an abort, and the
body of the `while (1)` loop (lines 41-57) becomes a step function from
the current state and one completion result (as delivered by
`demi_wait_any`) to a new state plus a list of observable effects.
The transport (demikernel) is a black box: the trace of completion
results and the values it writes (queue descriptors, queue tokens,
return codes) are inputs to the model.
-/

/-- Size of the `qts` token array: `#define NQTOKEN 1024`. -/
def NQTOKEN : Nat := 1024

/-- Value of `EXIT_SUCCESS` used by the `return (EXIT_SUCCESS)` after the loop. -/
def EXIT_SUCCESS : Int := 0

/-- Completion kinds of `demi_opcode_t` as matched by the loop
(`DEMI_OPC_ACCEPT`, `DEMI_OPC_POP`); the remaining constructors stand for
every other tag the header defines. -/
inductive demi_opcode where
  | invalid
  | push
  | pop
  | accept
  | connect
  | close
  | failed
deriving DecidableEq

/-- Accept result `qr.qr_value.ares`: the code reads only the new queue
descriptor `ares.qd`. -/
structure demi_accept_result_t where
  qd : Int
deriving DecidableEq

/-- One scatter-gather segment `(sgaseg_buf, sgaseg_len)`.  The pointed-to
bytes are modelled as the string they hold. -/
structure demi_sgaseg_t where
  sgaseg_buf : String
  sgaseg_len : Nat
deriving DecidableEq

/-- Scatter-gather array `qr.qr_value.sga`.  In the C header `sga_segs` is
a fixed-size embedded array (always addressable, its address never NULL);
`sga_numsegs` says how many entries are valid. -/
structure demi_sgarray_t where
  sga_numsegs : Nat
  sga_segs : List demi_sgaseg_t
deriving DecidableEq

/-- The union `qr_value` of `demi_qresult_t`: which member is meaningful
depends on `qr_opcode`. -/
inductive demi_qr_value_t where
  | ares (a : demi_accept_result_t)
  | sga (s : demi_sgarray_t)
  | noValue
deriving DecidableEq

/-- Reading `qr_value.ares.qd`; on a union holding another member this is a
reinterpretation, modelled as 0. -/
def demi_qr_value_t.aresQd : demi_qr_value_t → Int
  | .ares a => a.qd
  | _ => 0

/-- Reading `qr_value.sga`; on a union holding another member this is a
reinterpretation, modelled as an empty array value. -/
def demi_qr_value_t.sgaVal : demi_qr_value_t → demi_sgarray_t
  | .sga s => s
  | _ => { sga_numsegs := 0, sga_segs := [] }

/-- Completion result written by `demi_wait_any`: the fields of
`demi_qresult_t` that the program reads. -/
structure demi_qresult_t where
  qr_opcode : demi_opcode
  qr_value : demi_qr_value_t
deriving DecidableEq

/-- Mutable state of `main` across loop iterations: the token array
`qts[NQTOKEN]`, the live count `nqts`, and the listening descriptor
`sockqd`. -/
structure ServerState where
  qts : List Int
  nqts : Nat
  sockqd : Int
deriving DecidableEq

/-- Inputs of one loop iteration that the transport supplies: the result
and index written by `demi_wait_any` plus its return code, and, when the
accept branch calls `demi_pop`, that call's return code and the token it
writes into `qts[nqts]`. -/
structure WaitInput where
  qr : demi_qresult_t
  offset : Int
  waitRc : Int
  popRc : Int
  popTok : Int
deriving DecidableEq

/-- Observable effects of one iteration, in program order. -/
inductive Effect where
  | waitAny (tokens : List Int)
  | printAccept
  | printRecv (len : Nat) (buf : String)
  | printOpcode (op : demi_opcode)
  | issuePop (qd : Int)
  | issueAccept (qd : Int)
  | sgaFree
deriving DecidableEq

/-- Ways one iteration can fail to produce a next state. -/
inductive StepError where
  | assertFailed
  | oobWrite
deriving DecidableEq

/-- Body of the `while (1)` loop (lines 42-57).  Each iteration calls
`demi_wait_any(&qr, &offset, qts, NQTOKEN)` (asserted to return 0) and
dispatches on `qr.qr_opcode`:
on `DEMI_OPC_ACCEPT` it prints, then runs
`demi_pop(&qts[nqts++], qr.qr_value.ares.qd)` (asserted to return 0) --
when `nqts` has reached `NQTOKEN` the write `qts[nqts]` is past the end
of the array, undefined behaviour modelled as `.oobWrite`;
on `DEMI_OPC_POP` it runs `assert(qr.qr_value.sga.sga_segs != 0)` -- in C
`sga_segs` is an embedded array whose address is never NULL, so the
assert always passes -- and then prints `sga_segs[0]` without consulting
`sga_numsegs`; the commented-out `demi_sgafree` is not executed;
any other opcode is printed raw. -/
def loopBody (st : ServerState) (inp : WaitInput) : Except StepError (ServerState × List Effect) :=
  let effWait := [Effect.waitAny st.qts]
  if inp.waitRc ≠ 0 then
    .error .assertFailed
  else if inp.qr.qr_opcode = .accept then
    if st.nqts < NQTOKEN then
      if inp.popRc ≠ 0 then
        .error .assertFailed
      else
        .ok ({ st with qts := st.qts.set st.nqts inp.popTok, nqts := st.nqts + 1 },
             effWait ++ [Effect.printAccept, Effect.issuePop inp.qr.qr_value.aresQd])
    else
      .error .oobWrite
  else if inp.qr.qr_opcode = .pop then
    let seg0 := (inp.qr.qr_value.sgaVal).sga_segs.headD { sgaseg_buf := "", sgaseg_len := 0 }
    .ok (st, effWait ++ [Effect.printRecv seg0.sgaseg_len seg0.sgaseg_buf])
  else
    .ok (st, effWait ++ [Effect.printOpcode inp.qr.qr_opcode])

/-- Return codes of the asserted calls of the setup phase (lines 27-39)
and the values the successful calls write back. -/
structure SetupInput where
  inet_pton_rc : Int
  demi_init_rc : Int
  demi_socket_rc : Int
  demi_bind_rc : Int
  demi_listen_rc : Int
  demi_accept_rc : Int
  socket_qd : Int
  accept_qt : Int
deriving DecidableEq

/-- State of `main` on entry to the loop: `qts` initialised by
`demi_qtoken_t qts[NQTOKEN] = {-1}` (first element -1, the rest 0) with
`qts[0]` then overwritten by `demi_accept`, `nqts = 1`, and `sockqd` the
descriptor `demi_socket` wrote. -/
def initState (sockqd accept_qt : Int) : ServerState :=
  { qts := (((-1 : Int) :: List.replicate (NQTOKEN - 1) 0).set 0 accept_qt),
    nqts := 1,
    sockqd := sockqd }

/-- Outcome of the setup phase: an assert failure calls `abort`, which
terminates the process by SIGABRT, a non-zero exit status, before the
loop is ever entered. -/
inductive SetupOutcome where
  | ok (st : ServerState)
  | aborted
deriving DecidableEq

/-- Setup phase of `main` (lines 27-39): each call is wrapped in
`assert(... == 0)` (`inet_pton` in `assert(... == 1)`); the first failing
assert aborts the process. -/
def setupPhase (inp : SetupInput) : SetupOutcome :=
  if inp.inet_pton_rc ≠ 1 then .aborted
  else if inp.demi_init_rc ≠ 0 then .aborted
  else if inp.demi_socket_rc ≠ 0 then .aborted
  else if inp.demi_bind_rc ≠ 0 then .aborted
  else if inp.demi_listen_rc ≠ 0 then .aborted
  else if inp.demi_accept_rc ≠ 0 then .aborted
  else .ok (initState inp.socket_qd inp.accept_qt)

/-- Condition of `while (1)`: the loop repeats while this is non-zero. -/
def whileCond : Int := 1

/-- Outcome of running the loop over a finite trace of completions:
`normalExit` is the `return (EXIT_SUCCESS)` after the loop, reached only
if `whileCond` tests zero; `aborted` an assert failure inside the loop;
`oobWrite` the undefined out-of-bounds token write; `running` the state
and accumulated effects when the observed trace is exhausted with the
loop still live. -/
inductive RunOutcome where
  | normalExit (status : Int)
  | aborted
  | oobWrite
  | running (st : ServerState) (effs : List Effect)
deriving DecidableEq

/-- The `while (1)` loop run over a finite trace of iteration inputs. -/
def runLoop : ServerState → List WaitInput → List Effect → RunOutcome
  | st, [], effs => .running st effs
  | st, inp :: rest, effs =>
    if whileCond = 0 then .normalExit EXIT_SUCCESS
    else
      match loopBody st inp with
      | .error .assertFailed => .aborted
      | .error .oobWrite => .oobWrite
      | .ok (st2, e) => runLoop st2 rest (effs ++ e)

/-- Outcome of the whole program on given transport behaviour. -/
inductive MainOutcome where
  | setupAborted
  | loop (r : RunOutcome)
deriving DecidableEq

/-- The program `main`: setup phase, then the reactor loop. -/
def mainRun (sinp : SetupInput) (trace : List WaitInput) : MainOutcome :=
  match setupPhase sinp with
  | .aborted => .setupAborted
  | .ok st => .loop (runLoop st trace [])

/-- Effects accumulated by a run that is still live. -/
def loopEffects : RunOutcome → List Effect
  | .running _ effs => effs
  | _ => []

/-- Token arrays passed to the successive `demi_wait_any` calls of a run. -/
def waitedLists : List Effect → List (List Int)
  | [] => []
  | .waitAny ts :: rest => ts :: waitedLists rest
  | _ :: rest => waitedLists rest

/-- Whether an effect is a `demi_pop` issuance. -/
def Effect.isIssuePop : Effect → Bool
  | .issuePop _ => true
  | _ => false

/-- Whether an effect is a `demi_accept` issuance. -/
def Effect.isIssueAccept : Effect → Bool
  | .issueAccept _ => true
  | _ => false

/-- Whether an effect is a `demi_sgafree` release. -/
def Effect.isSgaFree : Effect → Bool
  | .sgaFree => true
  | _ => false

/-- Whether an effect exposes received bytes to the application. -/
def Effect.isPrintRecv : Effect → Bool
  | .printRecv _ _ => true
  | _ => false

/-- The `struct sockaddr_in` fields as the program assigns them
(lines 20, 27-30): `sin_family = AF_INET`, then the 16-bit port field is
assigned the literal 9050 with no conversion, and `inet_pton` of
"0.0.0.0" yields address 0. -/
structure sockaddr_in where
  sin_family : Int
  sin_port : Nat
  sin_addr : Nat
deriving DecidableEq

/-- Numeric value of `AF_INET`. -/
def AF_INET : Int := 2

/-- Host-to-network conversion of a 16-bit value: byte swap. -/
def htons (x : Nat) : Nat := ((x % 256) * 256 + (x / 256 % 256)) % 65536

/-- The address the program binds: built exactly as lines 27-30 do,
storing the literal 9050 (reduced into 16 bits) into `sin_port`. -/
def saddr : sockaddr_in :=
  { sin_family := AF_INET, sin_port := 9050 % 65536, sin_addr := 0 }

/-- Extract the effects of one successful iteration. -/
def stepEffects : Except StepError (ServerState × List Effect) → List Effect
  | .ok p => p.2
  | .error _ => []

/-- Initial state for concrete runs: `demi_socket` wrote descriptor 3 and
`demi_accept` wrote token 42 into `qts[0]`. -/
def stInit : ServerState := initState 3 42

/-- Concrete accept completion at offset 0: new connection descriptor 7;
the `demi_pop` it triggers succeeds and writes token 55. -/
def iAccept : WaitInput :=
  { qr := { qr_opcode := .accept, qr_value := .ares { qd := 7 } },
    offset := 0, waitRc := 0, popRc := 0, popTok := 55 }

/-- Concrete receive completion: one valid segment holding "hello". -/
def iPop : WaitInput :=
  { qr := { qr_opcode := .pop,
            qr_value := .sga { sga_numsegs := 1,
                               sga_segs := [{ sgaseg_buf := "hello", sgaseg_len := 5 }] } },
    offset := 0, waitRc := 0, popRc := 0, popTok := 0 }

/-- Concrete receive completion with zero valid segments: `sga_numsegs`
is 0, while the embedded `sga_segs` array still physically holds stale
bytes at index 0. -/
def iPop0 : WaitInput :=
  { qr := { qr_opcode := .pop,
            qr_value := .sga { sga_numsegs := 0,
                               sga_segs := [{ sgaseg_buf := "stale", sgaseg_len := 5 }] } },
    offset := 0, waitRc := 0, popRc := 0, popTok := 0 }

/-- Concrete completion of an unhandled kind (`DEMI_OPC_CONNECT`). -/
def iConn : WaitInput :=
  { qr := { qr_opcode := .connect, qr_value := .noValue },
    offset := 0, waitRc := 0, popRc := 0, popTok := 0 }

/-- State whose token array already holds `NQTOKEN` live tokens. -/
def stFull : ServerState :=
  { qts := List.replicate NQTOKEN 7, nqts := NQTOKEN, sockqd := 3 }

/-- Setup input whose `demi_bind` call fails. -/
def sinpBindFails : SetupInput :=
  { inet_pton_rc := 1, demi_init_rc := 0, demi_socket_rc := 0,
    demi_bind_rc := -1, demi_listen_rc := 0, demi_accept_rc := 0,
    socket_qd := 3, accept_qt := 42 }

/-- Claim C9: the program stores the literal port value 9050 into the
socket address's 16-bit port field without host-to-network conversion,
so the value bound is 9050 in host byte order, not `htons(9050)`. -/
theorem port_stored_without_htons :
    saddr.sin_port = 9050 ∧ saddr.sin_port ≠ htons 9050 := by
  decide

/-- Claim C7: for every completion whose kind is neither `DEMI_OPC_ACCEPT`
nor `DEMI_OPC_POP` (and with `demi_wait_any` itself succeeding), the loop
body prints the raw opcode tag, leaves the state unchanged, and returns
successfully, so the loop continues to its next iteration. -/
theorem unrecognized_opcode_logged_and_continues
    (st : ServerState) (inp : WaitInput)
    (hw : inp.waitRc = 0)
    (ha : inp.qr.qr_opcode ≠ demi_opcode.accept)
    (hp : inp.qr.qr_opcode ≠ demi_opcode.pop) :
    loopBody st inp = .ok (st, [Effect.waitAny st.qts, Effect.printOpcode inp.qr.qr_opcode]) := by
  simp [loopBody, hw, ha, hp]

/-- Witness for C7: a `DEMI_OPC_CONNECT` completion on the initial state
is logged raw and the state is unchanged. -/
theorem unrecognized_opcode_logged_and_continues_w :
    loopBody stInit iConn =
      .ok (stInit, [Effect.waitAny stInit.qts, Effect.printOpcode demi_opcode.connect]) :=
  unrecognized_opcode_logged_and_continues stInit iConn (by decide) (by decide) (by decide)

/-- Claim C8: if `demi_socket`, `demi_bind` or `demi_listen` returns
non-zero, the corresponding `assert` fails and the process aborts (a
non-zero exit status) before the reactor loop is ever entered: the
program outcome is `setupAborted`, which carries no loop activity at
all, whatever the transport would later have delivered. -/
theorem setup_failure_aborts_before_loop
    (sinp : SetupInput) (trace : List WaitInput)
    (h : sinp.demi_socket_rc ≠ 0 ∨ sinp.demi_bind_rc ≠ 0 ∨ sinp.demi_listen_rc ≠ 0) :
    mainRun sinp trace = .setupAborted := by
  rcases h with h | h | h <;>
    · unfold mainRun setupPhase
      split_ifs <;> simp_all

/-- Witness for C8: with `demi_bind` returning -1 the program aborts in
setup and never reaches the loop. -/
theorem setup_failure_aborts_before_loop_w :
    mainRun sinpBindFails [iAccept] = .setupAborted :=
  setup_failure_aborts_before_loop sinpBindFails [iAccept] (Or.inr (Or.inl (by decide)))

/-- Claim C10: the reactor loop never exits normally: since the condition
of `while (1)` is the constant 1, the `return (EXIT_SUCCESS)` after the
loop is unreachable, and a run only ever ends in an assert failure, the
undefined out-of-bounds write, or still running when observation stops. -/
theorem reactor_loop_never_exits_normally
    (st : ServerState) (trace : List WaitInput) (effs : List Effect) (status : Int) :
    runLoop st trace effs ≠ RunOutcome.normalExit status := by
  induction trace generalizing st effs with
  | nil =>
    intro h
    simp [runLoop] at h
  | cons inp rest ih =>
    intro h
    rw [runLoop, if_neg (by decide)] at h
    cases hb : loopBody st inp with
    | error e =>
      cases e <;> rw [hb] at h <;> exact RunOutcome.noConfusion h
    | ok p =>
      rw [hb] at h
      exact ih p.1 (effs ++ p.2) h

/-- Claim C1 (violated by the code): on a Receive completion with a
non-empty payload the loop body exposes the bytes to the application
(one `printRecv`) but never invokes `demi_sgafree` — the release call is
commented out — so the release count is 0 while the successful-receive
count is 1. -/
theorem receive_buffer_never_released :
    (stepEffects (loopBody stInit iPop)).countP Effect.isPrintRecv = 1 ∧
    (stepEffects (loopBody stInit iPop)).countP Effect.isSgaFree = 0 := by
  decide

/-- Claim C2 (violated by the code): in a state whose token array already
holds `NQTOKEN` live tokens, an Accept completion makes the loop body
execute `demi_pop(&qts[nqts++], ...)` with `nqts = NQTOKEN`, an
out-of-bounds write past the end of `qts` (undefined behaviour), instead
of failing with any `CapacityExceeded` error and continuing. -/
theorem accept_full_state_oob_write :
    loopBody stFull iAccept = .error StepError.oobWrite := by
  rfl

/-- Claim C3 (violated by the code): on an Accept completion the loop
body issues exactly one receive on the new connection (descriptor 7) and
registers its token, but issues no fresh accept on the listening
endpoint, so after the first accepted connection no accept token is
outstanding and listening stalls. -/
theorem accept_handler_never_rearms_listen :
    (stepEffects (loopBody stInit iAccept)).countP Effect.isIssuePop = 1 ∧
    (stepEffects (loopBody stInit iAccept)).countP Effect.isIssueAccept = 0 := by
  decide

/-- Claim C4 (violated by the code): on a Receive completion the loop
body consumes the payload (one `printRecv`) but issues no new receive on
any connection — the connection is a one-shot read, never re-armed. -/
theorem pop_handler_never_rearms_receive :
    (stepEffects (loopBody stInit iPop)).countP Effect.isPrintRecv = 1 ∧
    (stepEffects (loopBody stInit iPop)).countP Effect.isIssuePop = 0 := by
  decide

/-- Claim C5 (violated by the code): on a Receive completion whose
segment count `sga_numsegs` is 0, the loop body still reads
`sga_segs[0]` — printing the stale bytes that slot holds — and returns
successfully; no `MalformedPayload` failure exists anywhere in the
dispatch. -/
theorem empty_sga_indexed_blindly :
    loopBody stInit iPop0 =
      .ok (stInit, [Effect.waitAny stInit.qts, Effect.printRecv 5 "stale"]) := by
  rfl

/-- Claim C6 (violated by the code): running two iterations from the
initial state, the first `demi_wait_any` is passed the accept token 42
at index 0 and completes at offset 0, yet the second `demi_wait_any` is
again passed token 42 at index 0 — the consumed token is never removed
from `qts` before the next wait call. -/
theorem completed_token_passed_to_next_wait :
    iAccept.offset = 0 ∧
    ((waitedLists (loopEffects (runLoop stInit [iAccept, iPop] []))).getD 0 []).getD 0 0 = 42 ∧
    ((waitedLists (loopEffects (runLoop stInit [iAccept, iPop] []))).getD 1 []).getD 0 0 = 42 := by
  decide
